import Mathlib

/-!
Verification development for the Data_workbench repository (src/main.py).

The application is a FastAPI service.  Its state is one process-wide
dictionary `df_cache` mapping generated session identifiers to pandas
DataFrames (src/main.py:29).  We embed it shallowly:

* a DataFrame cell is `Option String` (`none` models a missing value / NaN
  as seen by `dropna`); a row is a list of cells; a DataFrame a list of rows;
* `df_cache` is an association list `Cache`;
* each HTTP handler becomes a total Lean function from its inputs to an
  `Outcome` (the HTTP response) and, where the handler or the code it runs
  can touch the cache, also the resulting cache;
* calls into external collaborators (the hosted completion model, eval/exec
  of generated Python, json.loads, ydata_profiling) are parameters of the
  handler functions: a completion is `Except String String` (the exception
  text, or the text of the response), evaluation behaviours are functions
  passed in.  Because `eval` at src/main.py:149 is invoked with no globals
  or locals argument, the evaluated chart code runs in the full frame of
  `generate_ai_visuals` and can reach and mutate `df_cache`; its behaviour
  is therefore a function `String -> Cache -> Cache x Except String String`.
  `exec` at src/main.py:202 receives the cached DataFrame object itself,
  and the session cache stays reachable from the executed code as well: the
  globals dict `{'df': df, 'pd': pd}` lacks a `__builtins__` key, so CPython
  injects the real builtins module into it (the `{}` stub sits in the
  locals dict, where it is merely a local variable), and the capturing
  `print` lambda closes over the module namespace of src/main.py, exposing
  `df_cache` as `print.__globals__['df_cache']`.  Executed chat code can
  therefore mutate both the table object and the cache dict; in
  state-passing style its behaviour maps the code, the cache and the table
  to the post-execution cache: `String -> Cache -> DataFrame -> Cache x
  Except String String`.
-/

/-- One cell of a table; `none` is a missing value (NaN). -/
abbrev Cell := Option String

/-- One row of a table. -/
abbrev Row := List Cell

/-- An in-memory table (pandas DataFrame). -/
abbrev DataFrame := List Row

/-- The process-wide session cache `df_cache` (src/main.py:29), an
insertion-ordered mapping from session identifier to table. -/
abbrev Cache := List (String × DataFrame)

/-- A chart descriptor as parsed from the completion JSON: an object with
`title` and `code` keys (src/main.py:138, 149-151). -/
structure ChartInfo where
  title : String
  code : String
deriving DecidableEq

/-- The observable HTTP response of a handler.  `redirect url status` is a
`RedirectResponse`; `html body` an `HTMLResponse` (status 200); `json answer`
the dict `{"answer": answer}` FastAPI serialises with status 200;
`unhandled exn` means an exception escaped the handler (the framework turns
it into a 500 Internal Server Error). -/
inductive Outcome where
  | redirect (url : String) (status : Nat)
  | html (body : String)
  | json (answer : String)
  | unhandled (exn : String)
deriving DecidableEq

/-- True exactly on `RedirectResponse` outcomes. -/
def Outcome.isRedirect : Outcome → Bool
  | Outcome.redirect _ _ => true
  | _ => false

/-! ## Python string primitives

`str.strip` and `str.replace` (src/main.py:142, 200) modelled over the
character list of a Lean string.  `replaceCsAux` scans left to right and
replaces non-overlapping occurrences, exactly as `str.replace` does; the
fuel argument (always the length of the scanned list at the call site)
makes the recursion structural so the definitions reduce inside the
kernel. -/

/-- Drop leading whitespace. -/
def lstripCs : List Char → List Char
  | [] => []
  | c :: cs => if c.isWhitespace then lstripCs cs else c :: cs

/-- Python `str.strip` over a character list: drop leading and trailing
whitespace. -/
def stripCs (l : List Char) : List Char :=
  ((lstripCs (lstripCs l).reverse)).reverse

/-- Python `str.strip()`. -/
def pyStrip (s : String) : String := ⟨stripCs s.data⟩

/-- Left-to-right non-overlapping replacement of `pat` by `rep`, with fuel.
A match consumes the matched head character plus `pat.length - 1` following
characters.  The empty pattern never matches (Python is never called with an
empty pattern in this program). -/
def replaceCsAux (pat rep : List Char) : Nat → List Char → List Char
  | _, [] => []
  | 0, l => l
  | fuel + 1, c :: cs =>
    if pat.isPrefixOf (c :: cs) && !pat.isEmpty then
      rep ++ replaceCsAux pat rep fuel (cs.drop (pat.length - 1))
    else
      c :: replaceCsAux pat rep fuel cs

/-- Python `s.replace(pat, rep)`. -/
def pyReplace (s pat rep : String) : String :=
  ⟨replaceCsAux pat.data rep.data s.data.length s.data⟩

/-- Sanitisation of the completion text in the visualization endpoint
(src/main.py:142): strip, remove all occurrences of three backticks followed
by json, then of three backticks. -/
def stripVisualFences (s : String) : String :=
  pyReplace (pyReplace (pyStrip s) "```json" "") "```" ""

/-- Sanitisation of the completion text in the chat endpoint
(src/main.py:200): strip, remove all occurrences of three backticks followed
by python, then of three backticks. -/
def stripChatFences (s : String) : String :=
  pyReplace (pyReplace (pyStrip s) "```python" "") "```" ""

/-- Concatenation of a list of rendered blocks, in order. -/
def concatBlocks : List String → String
  | [] => ""
  | b :: bs => b ++ concatBlocks bs

/-! ## Cleaning on upload (src/main.py:124) -/

/-- `df.dropna()`: keep exactly the rows in which every cell is present. -/
def dropna (df : DataFrame) : DataFrame :=
  df.filter (fun r => r.all (fun c => c.isSome))

/-- Worker for `drop_duplicates`: keep the first occurrence of each row,
remembering the rows already emitted. -/
def drop_duplicates_go (seen : List Row) : List Row → List Row
  | [] => []
  | r :: rs =>
    if r ∈ seen then drop_duplicates_go seen rs
    else r :: drop_duplicates_go (r :: seen) rs

/-- `df.drop_duplicates()`: keep the first occurrence of each row. -/
def drop_duplicates (df : DataFrame) : DataFrame :=
  drop_duplicates_go [] df

/-- The cleaning applied on upload: `df.dropna().drop_duplicates()`
(src/main.py:124). -/
def clean (df : DataFrame) : DataFrame :=
  drop_duplicates (dropna df)

/-! ## External behaviours, as handler parameters -/

/-- Behaviour of `eval(chart_info["code"])` followed by `fig.to_html(...)`
(src/main.py:149-150).  The eval is invoked with no globals or locals, so
the code runs in the full handler frame, where `df_cache` is visible: the
behaviour receives the cache and returns the cache as it stands after the
evaluation, together with either the embeddable chart markup or the text of
the raised exception. -/
abbrev EvalB := String → Cache → Cache × Except String String

/-- Behaviour of `exec(code, {'df': df, 'pd': pd}, ...)` (src/main.py:202).
The executed code receives the cached DataFrame object bound to `df` and
may mutate it in place — that object is the cache entry — and the session
cache itself stays reachable from the code: the globals dict has no
`__builtins__` key, so CPython injects the real builtins module into it
(the `{}` stub in the locals dict is just a local variable and restricts
nothing), and the capturing `print` lambda closes over the module namespace
of src/main.py, so `print.__globals__` exposes `df_cache`.  The behaviour
therefore maps the code, the cache and the table to the cache as the
executed code left it, together with the text captured from `print` or the
text of the raised exception.  The handler itself writes nothing. -/
abbrev ExecB := String → Cache → DataFrame → Cache × Except String String

/-- Behaviour of `json.loads` on the sanitised completion
(src/main.py:143): `none` when it raises, otherwise the parsed chart
list. -/
abbrev ParseB := String → Option (List ChartInfo)

/-- Behaviour of `ProfileReport(df, ...).to_html()` (src/main.py:161-162). -/
abbrev ProfileB := DataFrame → String

/-! ## Rendered fragments -/

/-- The top-level error page of the visualization endpoint (src/main.py:144):
an h1 header followed by the raw completion text in a pre element. -/
def errorPage (rawText : String) : String :=
  "<h1>Error processing AI response.</h1><pre>" ++ rawText ++ "</pre>"

/-- The visualization page wrapping the concatenated chart blocks
(src/main.py:153). -/
def visualsPage (blocks : String) : String :=
  "<html><body><h1>AI Visualizations</h1>" ++ blocks ++ "</body></html>"

/-- The block appended for a chart whose code evaluated successfully
(src/main.py:150). -/
def chartBlock (title figHtml : String) : String :=
  "<h3>" ++ title ++ "</h3>" ++ figHtml

/-- The inline error block appended for a chart whose evaluation raised
(src/main.py:151). -/
def chartErrorBlock (title emsg : String) : String :=
  "<h3>Error generating chart: " ++ title ++ "</h3><p>" ++ emsg ++ "</p>"

/-- The dashboard page body (src/main.py:71-114).  The page is static HTML
with three links parameterised by the session identifier; no claim depends
on its contents, so only the links are reproduced. -/
def dashboardBody (file_id : String) : String :=
  "<html><body><h1>Your Data is Ready</h1><a href=/ai_visuals/" ++ file_id
    ++ "></a><a href=/statistical_report/" ++ file_id
    ++ "></a><a href=/chat/" ++ file_id ++ "></a></body></html>"

/-- The chat page body (src/main.py:172-190), static HTML and client-side
script; no claim depends on its contents. -/
def chatPageBody : String :=
  "<html><body><h2>Chat with your AI Data Analyst</h2></body></html>"

/-- The answer string of the chat endpoint (src/main.py:203): the captured
output, or, because an empty string is falsy under Python `or`, the fixed
string when nothing was printed. -/
def chatAnswer (captured : String) : String :=
  if captured = "" then "Action performed." else captured

/-! ## Handlers (src/main.py) -/

/-- POST /upload/ (src/main.py:119-128).  The parsed CSV table is cleaned by
`dropna().drop_duplicates()`, stored in the cache under the freshly
generated identifier, and the client is redirected (303) to the dashboard.
The identifier produced by `uuid.uuid4()` is a parameter. -/
def upload_and_process (cache : Cache) (newId : String) (df : DataFrame) :
    Outcome × Cache :=
  (Outcome.redirect ("/dashboard/" ++ newId) 303, (newId, clean df) :: cache)

/-- GET /dashboard/{file_id} (src/main.py:66-114): redirect to the landing
page when the identifier is unknown, else the dashboard page. -/
def get_dashboard (cache : Cache) (file_id : String) : Outcome :=
  match List.lookup file_id cache with
  | none => Outcome.redirect "/" 307
  | some _ => Outcome.html (dashboardBody file_id)

/-- The loop of src/main.py:147-151 rendering one chart: evaluate the code
in the handler frame; on success append the title header and the chart
markup, on an exception append the inline error block. -/
def renderChart (evalB : EvalB) (c : ChartInfo) (cache : Cache) :
    String × Cache :=
  match evalB c.code cache with
  | (cache2, Except.ok figHtml) => (chartBlock c.title figHtml, cache2)
  | (cache2, Except.error e) => (chartErrorBlock c.title e, cache2)

/-- The full loop of src/main.py:146-151: blocks are concatenated in list
order, the frame state threading through the per-chart evaluations. -/
def renderCharts (evalB : EvalB) : List ChartInfo → Cache → String × Cache
  | [], cache => ("", cache)
  | c :: cs, cache =>
    ((renderChart evalB c cache).1
       ++ (renderCharts evalB cs (renderChart evalB c cache).2).1,
     (renderCharts evalB cs (renderChart evalB c cache).2).2)

/-- Same loop, returning the list of rendered blocks instead of their
concatenation (used to state per-item properties). -/
def renderBlocks (evalB : EvalB) : List ChartInfo → Cache → List String × Cache
  | [], cache => ([], cache)
  | c :: cs, cache =>
    ((renderChart evalB c cache).1
       :: (renderBlocks evalB cs (renderChart evalB c cache).2).1,
     (renderBlocks evalB cs (renderChart evalB c cache).2).2)

/-- GET /ai_visuals/{file_id} (src/main.py:130-153).  `completion` is the
result of `ai_model.generate_content(prompt)` followed by the `.text`
access: `Except.error exn` when that raised with message `exn`.  In the
error case the source except handler (line 144) itself interpolates
`ai_response.text`; `ai_response` is unbound (or its `.text` raises again),
so the failure escapes the handler unhandled.  When the completion text is
obtained, it is sanitised and handed to `json.loads` (`parse`); a parse
failure yields the top-level error page embedding the raw text; a parsed
chart list is rendered item by item. -/
def generate_ai_visuals (cache : Cache) (file_id : String)
    (completion : Except String String) (parse : ParseB) (evalB : EvalB) :
    Outcome × Cache :=
  match List.lookup file_id cache with
  | none => (Outcome.redirect "/" 307, cache)
  | some _ =>
    match completion with
    | Except.error exn => (Outcome.unhandled exn, cache)
    | Except.ok text =>
      match parse (stripVisualFences text) with
      | none => (Outcome.html (errorPage text), cache)
      | some charts =>
        (Outcome.html (visualsPage (renderCharts evalB charts cache).1),
         (renderCharts evalB charts cache).2)

/-- GET /statistical_report/{file_id} (src/main.py:155-162): redirect when
the identifier is unknown, else the profiling report page. -/
def generate_statistical_report (cache : Cache) (file_id : String)
    (profile : ProfileB) : Outcome :=
  match List.lookup file_id cache with
  | none => Outcome.redirect "/" 307
  | some df => Outcome.html (profile df)

/-- GET /chat/{file_id} (src/main.py:167-190): redirect when the identifier
is unknown, else the chat page. -/
def chat_page (cache : Cache) (file_id : String) : Outcome :=
  match List.lookup file_id cache with
  | none => Outcome.redirect "/" 307
  | some _ => Outcome.html chatPageBody

/-- POST /ask/{file_id} (src/main.py:192-205).  An unknown identifier
yields the JSON body with answer "Session not found." (not a redirect).
Otherwise the completion text (or the exception raised obtaining it, caught
by line 204) is sanitised into a code line and executed; a raised exception
yields the "Error: " answer; otherwise the captured output (or the fixed
string when empty) is returned.  The handler performs no cache write of its
own: the cache after the request is whatever the executed code — which
holds references to the cached table and, through the print closure and the
injected builtins, to the cache dict itself — left behind. -/
def ask_question (cache : Cache) (file_id : String)
    (completion : Except String String) (execB : ExecB) : Outcome × Cache :=
  match List.lookup file_id cache with
  | none => (Outcome.json "Session not found.", cache)
  | some df =>
    match completion with
    | Except.error e => (Outcome.json ("Error: " ++ e), cache)
    | Except.ok text =>
      match execB (stripChatFences text) cache df with
      | (cache2, Except.ok captured) =>
        (Outcome.json (chatAnswer captured), cache2)
      | (cache2, Except.error e) =>
        (Outcome.json ("Error: " ++ e), cache2)

/-! ## Name environments of the two execution sites -/

/-- Keys of the globals dict passed to exec at src/main.py:202. -/
def chatExecGlobals : List String := ["df", "pd"]

/-- Keys of the locals dict passed to exec at src/main.py:202: a stub
entry named like the builtins module, and the output-capturing print. -/
def chatExecLocals : List String := ["__builtins__", "print"]

/-- Names visible to `eval(chart_info["code"])` at src/main.py:149.  The
call passes no globals or locals, so the evaluated code resolves names in
the frame of `generate_ai_visuals`: its function locals (lines 131-147)
followed by the module globals of src/main.py (lines 4-31 imports and
definitions), on top of the real builtins. -/
def visualEvalNames : List String :=
  ["file_id", "df", "data_summary", "prompt", "ai_response",
   "cleaned_response", "charts_to_generate", "all_charts_html", "chart_info",
   "pd", "io", "px", "uuid", "os", "json", "List", "FastAPI", "File",
   "UploadFile", "Form", "Request", "HTMLResponse", "RedirectResponse",
   "StreamingResponse", "genai", "load_dotenv", "BaseModel", "ai_model",
   "app", "df_cache", "ChatQuestion", "read_root", "get_dashboard",
   "upload_and_process", "generate_ai_visuals", "generate_statistical_report",
   "chat_page", "ask_question"]

/-! ## Helper lemmas -/

theorem mem_drop_duplicates_go (l : List Row) :
    ∀ (seen : List Row) (r : Row), r ∈ drop_duplicates_go seen l → r ∈ l := by
  induction l with
  | nil => intro seen r h; simp [drop_duplicates_go] at h
  | cons a as ih =>
    intro seen r h
    simp only [drop_duplicates_go] at h
    by_cases ha : a ∈ seen
    · simp only [if_pos ha] at h
      exact List.mem_cons_of_mem a (ih seen r h)
    · simp only [if_neg ha, List.mem_cons] at h
      rcases h with h | h
      · exact h ▸ List.mem_cons_self a as
      · exact List.mem_cons_of_mem a (ih (a :: seen) r h)

theorem drop_duplicates_go_not_mem_seen (l : List Row) :
    ∀ (seen : List Row) (r : Row), r ∈ drop_duplicates_go seen l → r ∉ seen := by
  induction l with
  | nil => intro seen r h; simp [drop_duplicates_go] at h
  | cons a as ih =>
    intro seen r h
    simp only [drop_duplicates_go] at h
    by_cases ha : a ∈ seen
    · simp only [if_pos ha] at h
      exact ih seen r h
    · simp only [if_neg ha, List.mem_cons] at h
      rcases h with h | h
      · exact h ▸ ha
      · intro hs
        exact ih (a :: seen) r h (List.mem_cons_of_mem a hs)

theorem drop_duplicates_go_nodup (l : List Row) :
    ∀ seen : List Row, (drop_duplicates_go seen l).Nodup := by
  induction l with
  | nil => intro seen; simp [drop_duplicates_go]
  | cons a as ih =>
    intro seen
    simp only [drop_duplicates_go]
    by_cases ha : a ∈ seen
    · simpa [if_pos ha] using ih seen
    · simp only [if_neg ha]
      refine List.nodup_cons.mpr ⟨?_, ih (a :: seen)⟩
      intro hmem
      exact drop_duplicates_go_not_mem_seen as (a :: seen) a hmem
        (List.mem_cons_self a seen)

theorem drop_duplicates_nodup (df : DataFrame) : (drop_duplicates df).Nodup :=
  drop_duplicates_go_nodup df []

theorem mem_drop_duplicates (df : DataFrame) (r : Row)
    (h : r ∈ drop_duplicates df) : r ∈ df :=
  mem_drop_duplicates_go df [] r h

theorem mem_dropna_complete (df : DataFrame) (r : Row) (h : r ∈ dropna df) :
    ∀ c ∈ r, c.isSome = true := by
  simp only [dropna, List.mem_filter] at h
  intro c hc
  exact (List.all_eq_true.mp h.2) c hc

theorem renderCharts_eq_blocks (evalB : EvalB) :
    ∀ (charts : List ChartInfo) (cache : Cache),
      renderCharts evalB charts cache
        = (concatBlocks ((renderBlocks evalB charts cache).1),
           (renderBlocks evalB charts cache).2) := by
  intro charts
  induction charts with
  | nil => intro cache; rfl
  | cons c cs ih =>
    intro cache
    simp only [renderCharts, renderBlocks, concatBlocks]
    rw [ih]

theorem renderBlocks_length (evalB : EvalB) :
    ∀ (charts : List ChartInfo) (cache : Cache),
      ((renderBlocks evalB charts cache).1).length = charts.length := by
  intro charts
  induction charts with
  | nil => intro cache; rfl
  | cons c cs ih =>
    intro cache
    simp only [renderBlocks, List.length_cons, ih]

theorem renderChart_cache (evalB : EvalB) (c : ChartInfo) (cache : Cache)
    (hpres : ∀ code cc, (evalB code cc).1 = cc) :
    (renderChart evalB c cache).2 = cache := by
  simp only [renderChart]
  have h := hpres c.code cache
  revert h
  rcases evalB c.code cache with ⟨cache2, r⟩
  intro h
  cases r with
  | ok a => exact h
  | error e => exact h

theorem renderCharts_cache (evalB : EvalB)
    (hpres : ∀ code cc, (evalB code cc).1 = cc) :
    ∀ (charts : List ChartInfo) (cache : Cache),
      (renderCharts evalB charts cache).2 = cache := by
  intro charts
  induction charts with
  | nil => intro cache; rfl
  | cons c cs ih =>
    intro cache
    show (renderCharts evalB cs (renderChart evalB c cache).2).2 = cache
    rw [renderChart_cache evalB c cache hpres]
    exact ih cache

/-! ## Concrete instances used by witnesses and counterexamples -/

/-- A one-row, one-column table. -/
def dfW : DataFrame := [[some "a"]]

/-- A cache holding one session. -/
def cacheW : Cache := [("s", dfW)]

/-- An eval behaviour that never touches the cache and always raises. -/
def evalKeep : EvalB := fun _ cc => (cc, Except.error "boom")

/-- An eval behaviour that never touches the cache and always succeeds. -/
def evalOk : EvalB := fun _ cc => (cc, Except.ok "FIG")

/-- An exec behaviour that mutates nothing and prints some output. -/
def execKeep : ExecB := fun _ cc _ => (cc, Except.ok "out")

/-- An exec behaviour that mutates nothing and raises with a fixed
message. -/
def execErr : ExecB := fun _ cc _ => (cc, Except.error "division by zero")

/-- An exec behaviour that mutates nothing and prints a value followed by a
newline. -/
def execPrint : ExecB := fun _ cc _ => (cc, Except.ok "42\n")

/-- An exec behaviour that mutates nothing and terminates having printed
nothing. -/
def execSilent : ExecB := fun _ cc _ => (cc, Except.ok "")

/-- A json.loads behaviour that always raises. -/
def parseNone : ParseB := fun _ => none

/-- A profiling behaviour returning a fixed report. -/
def profileW : ProfileB := fun _ => "profile"

/-- Chart descriptors for the three-item witness of C5. -/
def cW1 : ChartInfo := ⟨"T1", "a"⟩

/-- Second descriptor: its code fails to evaluate. -/
def cW2 : ChartInfo := ⟨"T2", "bad"⟩

/-- Third descriptor. -/
def cW3 : ChartInfo := ⟨"T3", "c"⟩

/-- The json.loads behaviour for the C5 witness: the completion parses to
the three descriptors. -/
def parse3 : ParseB := fun _ => some [cW1, cW2, cW3]

/-- The eval behaviour for the C5 witness: the code of `cW2` raises, the
others produce chart markup; the cache is untouched. -/
def eval3 : EvalB := fun code cc =>
  if code = "bad" then (cc, Except.error "boom") else (cc, Except.ok "FIG")

/-- A completion whose text is exactly the JSON document
`[{"title": "t", "code": "df_cache.clear()"}]` (no fences, no edge
whitespace, so sanitisation leaves it unchanged). -/
def clearCompletion : String :=
  "[\x7b\"title\": \"t\", \"code\": \"df_cache.clear()\"\x7d]"

/-- The single chart descriptor contained in `clearCompletion`. -/
def clearChart : ChartInfo := ⟨"t", "df_cache.clear()"⟩

/-- Behaviour of json.loads on the sanitised `clearCompletion`: the
one-element chart list; other inputs are not reached in the
counterexample. -/
def parseClear : ParseB := fun s =>
  if s = clearCompletion then some [clearChart] else none

/-- Behaviour of Python eval on the code `df_cache.clear()` in the frame of
`generate_ai_visuals`: the eval at src/main.py:149 passes no globals or
locals, so the name `df_cache` resolves to the module-level session cache;
`dict.clear` empties it and the call returns None, after which
`fig.to_html(...)` at line 150 raises AttributeError (caught by line 151 as
an inline error block).  The cache is empty afterwards. -/
def evalClear : EvalB := fun code cache =>
  if code = "df_cache.clear()" then
    ([], Except.error "NoneType object has no attribute to_html")
  else (cache, Except.error "not evaluated")

/-- The chat code line `print.__globals__["df_cache"].clear()`. -/
def chatClearCode : String := "print.__globals__[\"df_cache\"].clear()"

/-- Behaviour of exec on `chatClearCode` in the environment built at
src/main.py:202: the name `print` resolves to the capturing lambda in the
locals dict, whose `__globals__` attribute is the module namespace of
src/main.py; the code empties `df_cache` there without touching `df`, the
call returns None, and nothing is printed. -/
def execClear : ExecB := fun code cc _ =>
  if code = chatClearCode then ([], Except.ok "") else (cc, Except.ok "")

/-! ## Claims -/

/-- C1: for every uploaded CSV table, the table stored in the session cache
by the upload handler is the cleaned table — cleaning (drop rows with
missing values, then drop duplicate rows, src/main.py:124) is applied
before caching under the new identifier — and that table has no duplicate
rows and no row with a missing value. -/
theorem upload_table_is_clean (cache : Cache) (newId : String)
    (df : DataFrame) :
    List.lookup newId (upload_and_process cache newId df).2 = some (clean df)
    ∧ (clean df).Nodup
    ∧ ∀ r ∈ clean df, ∀ c ∈ r, c.isSome = true := by
  refine ⟨?_, drop_duplicates_nodup (dropna df), ?_⟩
  · simp [upload_and_process, List.lookup]
  · intro r hr
    exact mem_dropna_complete df r (mem_drop_duplicates (dropna df) r hr)

/-- C2 (counterexample): the claim says every dependent endpoint, the ask
endpoint included, redirects to the landing page on an unknown session
identifier; but POST /ask/{id} on an unknown identifier returns the JSON
body with answer "Session not found." (src/main.py:195), which is not a
redirect. -/
theorem ask_unknown_session_not_redirect :
    ((ask_question [] "missing" (Except.ok "q") execKeep).1).isRedirect
      = false := rfl

/-- C2 (amended): on a session identifier absent from the cache, the
dashboard, AI visuals, statistical report and chat page endpoints return a
redirect to the landing page, while the ask endpoint returns the
HTTP-success JSON body with answer "Session not found."; none of them
raises an unhandled error and the cache is untouched. -/
theorem unknown_session_outcomes (cache : Cache) (file_id : String)
    (completion completion2 : Except String String) (parse : ParseB)
    (evalB : EvalB) (profile : ProfileB) (execB : ExecB)
    (h : List.lookup file_id cache = none) :
    get_dashboard cache file_id = Outcome.redirect "/" 307
    ∧ (generate_ai_visuals cache file_id completion parse evalB).1
        = Outcome.redirect "/" 307
    ∧ generate_statistical_report cache file_id profile
        = Outcome.redirect "/" 307
    ∧ chat_page cache file_id = Outcome.redirect "/" 307
    ∧ (ask_question cache file_id completion2 execB).1
        = Outcome.json "Session not found."
    ∧ (generate_ai_visuals cache file_id completion parse evalB).2 = cache
    ∧ (ask_question cache file_id completion2 execB).2 = cache := by
  simp [get_dashboard, generate_ai_visuals, generate_statistical_report,
    chat_page, ask_question, h]

/-- C2 witness: the amended statement at a concrete unknown identifier. -/
theorem unknown_session_outcomes_witness :
    get_dashboard [] "z" = Outcome.redirect "/" 307
    ∧ (generate_ai_visuals [] "z" (Except.ok "t") parseNone evalKeep).1
        = Outcome.redirect "/" 307
    ∧ generate_statistical_report [] "z" profileW = Outcome.redirect "/" 307
    ∧ chat_page [] "z" = Outcome.redirect "/" 307
    ∧ (ask_question [] "z" (Except.ok "t") execKeep).1
        = Outcome.json "Session not found."
    ∧ (generate_ai_visuals [] "z" (Except.ok "t") parseNone evalKeep).2 = []
    ∧ (ask_question [] "z" (Except.ok "t") execKeep).2 = [] :=
  unknown_session_outcomes [] "z" (Except.ok "t") (Except.ok "t") parseNone
    evalKeep profileW execKeep rfl

/-- C3: when the executed code line raises, the ask endpoint returns the
HTTP-success JSON body (shape: a single answer string) whose answer is the
prefix "Error: " followed by the exception text (src/main.py:204-205). -/
theorem ask_exec_error_answer (cache cache2 : Cache)
    (file_id text emsg : String) (df : DataFrame) (execB : ExecB)
    (hdf : List.lookup file_id cache = some df)
    (hexec : execB (stripChatFences text) cache df
        = (cache2, Except.error emsg)) :
    (ask_question cache file_id (Except.ok text) execB).1
      = Outcome.json ("Error: " ++ emsg) := by
  simp [ask_question, hdf, hexec]

/-- C3 witness: a concrete raising execution. -/
theorem ask_exec_error_answer_witness :
    (ask_question cacheW "s" (Except.ok "1/0") execErr).1
      = Outcome.json ("Error: " ++ "division by zero") :=
  ask_exec_error_answer cacheW cacheW "s" "1/0" "division by zero" dfW
    execErr rfl rfl

/-- C4: when the sanitised completion is not valid JSON, the visualization
endpoint returns the single top-level error page embedding the raw
completion text; the response does not depend on the chart-evaluation
behaviour at all (chart evaluation is never reached) and the cache is
untouched. -/
theorem visuals_parse_failure_error_page (cache : Cache)
    (file_id text : String) (df : DataFrame) (parse : ParseB)
    (evalB evalB2 : EvalB)
    (hdf : List.lookup file_id cache = some df)
    (hparse : parse (stripVisualFences text) = none) :
    (generate_ai_visuals cache file_id (Except.ok text) parse evalB).1
      = Outcome.html (errorPage text)
    ∧ generate_ai_visuals cache file_id (Except.ok text) parse evalB
        = generate_ai_visuals cache file_id (Except.ok text) parse evalB2
    ∧ (generate_ai_visuals cache file_id (Except.ok text) parse evalB).2
        = cache := by
  simp [generate_ai_visuals, hdf, hparse]

/-- C4 witness: a concrete unparsable completion. -/
theorem visuals_parse_failure_error_page_witness :
    (generate_ai_visuals cacheW "s" (Except.ok "not json") parseNone
        evalKeep).1
      = Outcome.html (errorPage "not json")
    ∧ generate_ai_visuals cacheW "s" (Except.ok "not json") parseNone evalKeep
        = generate_ai_visuals cacheW "s" (Except.ok "not json") parseNone
            evalOk
    ∧ (generate_ai_visuals cacheW "s" (Except.ok "not json") parseNone
          evalKeep).2
        = cacheW :=
  visuals_parse_failure_error_page cacheW "s" "not json" dfW parseNone
    evalKeep evalOk rfl rfl

/-- C5: a successfully parsed three-item chart list whose middle item fails
to evaluate renders exactly one block per item in list order — two chart
blocks and one inline error block whose text contains the failing title —
and in general the loop emits one block per list item, concatenated in
order. -/
theorem visuals_one_failing_chart (cache cache1 cache2 cache3 : Cache)
    (file_id text emsg fig1 fig3 : String) (df : DataFrame)
    (parse : ParseB) (evalB : EvalB) (c1 c2 c3 : ChartInfo)
    (hdf : List.lookup file_id cache = some df)
    (hparse : parse (stripVisualFences text) = some [c1, c2, c3])
    (h1 : evalB c1.code cache = (cache1, Except.ok fig1))
    (h2 : evalB c2.code cache1 = (cache2, Except.error emsg))
    (h3 : evalB c3.code cache2 = (cache3, Except.ok fig3)) :
    (generate_ai_visuals cache file_id (Except.ok text) parse evalB).1
      = Outcome.html (visualsPage (concatBlocks
          [chartBlock c1.title fig1, chartErrorBlock c2.title emsg,
           chartBlock c3.title fig3]))
    ∧ (∃ pre post, chartErrorBlock c2.title emsg = pre ++ (c2.title ++ post))
    ∧ (∀ (charts : List ChartInfo) (cc : Cache),
        ((renderBlocks evalB charts cc).1).length = charts.length
        ∧ (renderCharts evalB charts cc).1
            = concatBlocks ((renderBlocks evalB charts cc).1)) := by
  refine ⟨?_,
    ⟨"<h3>Error generating chart: ", "</h3><p>" ++ emsg ++ "</p>", by
      apply String.ext
      simp [chartErrorBlock, String.data_append]⟩, ?_⟩
  · simp [generate_ai_visuals, hdf, hparse, renderCharts, renderChart,
      h1, h2, h3, concatBlocks]
  · intro charts cc
    exact ⟨renderBlocks_length evalB charts cc,
      by rw [renderCharts_eq_blocks]⟩

/-- C5 witness: the concrete three-item list with a failing middle item. -/
theorem visuals_one_failing_chart_witness :
    (generate_ai_visuals cacheW "s" (Except.ok "t") parse3 eval3).1
      = Outcome.html (visualsPage (concatBlocks
          [chartBlock "T1" "FIG", chartErrorBlock "T2" "boom",
           chartBlock "T3" "FIG"])) :=
  (visuals_one_failing_chart cacheW cacheW cacheW cacheW "s" "t" "boom"
    "FIG" "FIG" dfW parse3 eval3 cW1 cW2 cW3 rfl rfl rfl rfl rfl).1

/-- C6: when the executed code line prints and does not raise, the answer
field is exactly the captured output, trailing newline included, with no
alteration (src/main.py:203). -/
theorem ask_printed_output_exact (cache cache2 : Cache)
    (file_id text captured : String) (df : DataFrame) (execB : ExecB)
    (hdf : List.lookup file_id cache = some df)
    (hexec : execB (stripChatFences text) cache df
        = (cache2, Except.ok captured))
    (hne : captured ≠ "") :
    (ask_question cache file_id (Except.ok text) execB).1
      = Outcome.json captured := by
  simp [ask_question, hdf, hexec, chatAnswer, hne]

/-- C6 witness: a concrete execution printing a value and a newline. -/
theorem ask_printed_output_exact_witness :
    (ask_question cacheW "s" (Except.ok "q") execPrint).1
      = Outcome.json "42\n" :=
  ask_printed_output_exact cacheW cacheW "s" "q" "42\n" dfW execPrint rfl
    rfl (by decide)

/-- C7 (code_bug evidence): when the completion call itself raises, the
visualization endpoint does not return an HTML error payload: the except
handler at src/main.py:144 interpolates `ai_response.text` although
`ai_response` was never bound, so the failure escapes the handler and the
request ends in an unhandled error. -/
theorem visuals_upstream_error_unhandled :
    (generate_ai_visuals cacheW "s"
        (Except.error
          "AttributeError: NoneType object has no attribute generate_content")
        parseNone evalKeep).1
      = Outcome.unhandled
          "AttributeError: NoneType object has no attribute generate_content"
      := rfl

/-- C8 (counterexample): a visualization request whose chart code is
`df_cache.clear()` empties the session cache — the eval at src/main.py:149
runs in the handler frame where `df_cache` is visible — and so does a chat
request whose executed line is `print.__globals__["df_cache"].clear()`,
reaching the cache through the captured print lambda without touching the
table.  In both cases the cache after the request differs from the cache
before it, refuting the claim that the cache is always the same after a
visualization or chat request. -/
theorem generated_code_can_clear_cache :
    (generate_ai_visuals cacheW "s" (Except.ok clearCompletion) parseClear
        evalClear).2
      ≠ cacheW
    ∧ (ask_question cacheW "s" (Except.ok chatClearCode) execClear).2
      ≠ cacheW := by decide

/-- C8 (amended): the handlers themselves never write to the session cache:
whenever the executed model code leaves the cache state it can reach
unchanged — for chat that state comprises the cached table it received by
reference and the cache dict reachable through the print closure and the
injected builtins; for visuals the whole frame of the handler, cache
included — the cache after the request equals the cache before it.  The
original claim fails only because the model code receives this live state:
chart code or chat code that mutates it changes the cache. -/
theorem handlers_no_cache_writes (cache : Cache) (file_id text : String)
    (parse : ParseB) (evalB : EvalB) (execB : ExecB) (df : DataFrame)
    (r : Except String String)
    (hdf : List.lookup file_id cache = some df)
    (hexec : execB (stripChatFences text) cache df = (cache, r))
    (hpres : ∀ code cc, (evalB code cc).1 = cc) :
    (ask_question cache file_id (Except.ok text) execB).2 = cache
    ∧ (generate_ai_visuals cache file_id (Except.ok text) parse evalB).2
        = cache := by
  refine ⟨?_, ?_⟩
  · simp only [ask_question, hdf, hexec]
    cases r with
    | error e => rfl
    | ok a => rfl
  · simp only [generate_ai_visuals, hdf]
    cases hp : parse (stripVisualFences text) with
    | none => rfl
    | some charts => exact renderCharts_cache evalB hpres charts cache

/-- C8 witness: concrete non-mutating behaviours leave the cache equal. -/
theorem handlers_no_cache_writes_witness :
    (ask_question cacheW "s" (Except.ok "q") execKeep).2 = cacheW
    ∧ (generate_ai_visuals cacheW "s" (Except.ok "q") parseNone evalKeep).2
        = cacheW :=
  handlers_no_cache_writes cacheW "s" "q" parseNone evalKeep execKeep dfW
    (Except.ok "out") rfl rfl (fun _ _ => rfl)

/-- C9 (counterexample): the evaluation environment of the visualization
endpoint does not expose only the table: eval at src/main.py:149 receives
no globals or locals, so among the names visible to the evaluated code are
the `os` module and the session cache `df_cache` itself. -/
theorem visuals_eval_env_not_only_df :
    ("os" ∈ visualEvalNames ∧ "os" ≠ "df")
    ∧ ("df_cache" ∈ visualEvalNames ∧ "df_cache" ≠ "df") := by decide

/-- C9 (amended): the environment dicts explicitly passed to exec in the
chat endpoint bind only the table, the pandas module, the output-capturing
print and a stub entry named like the builtins module; the visualization
eval, by contrast, runs with the full handler frame, whose visible names
include the `os` and `json` modules and the cache `df_cache` besides the
table. -/
theorem exec_env_names :
    (∀ n ∈ chatExecGlobals ++ chatExecLocals,
        n ∈ (["df", "pd", "__builtins__", "print"] : List String))
    ∧ "df" ∈ chatExecGlobals ∧ "pd" ∈ chatExecGlobals
    ∧ "print" ∈ chatExecLocals
    ∧ "os" ∈ visualEvalNames ∧ "json" ∈ visualEvalNames
    ∧ "df_cache" ∈ visualEvalNames ∧ "df" ∈ visualEvalNames := by decide

/-- C10: when the executed code line terminates without raising and prints
nothing, the empty captured output is falsy under the Python `or` at
src/main.py:203, so the answer field is the fixed string
"Action performed.". -/
theorem ask_empty_output_action_performed (cache cache2 : Cache)
    (file_id text : String) (df : DataFrame) (execB : ExecB)
    (hdf : List.lookup file_id cache = some df)
    (hexec : execB (stripChatFences text) cache df
        = (cache2, Except.ok "")) :
    (ask_question cache file_id (Except.ok text) execB).1
      = Outcome.json "Action performed." := by
  simp [ask_question, hdf, hexec, chatAnswer]

/-- C10 witness: a concrete silent execution. -/
theorem ask_empty_output_action_performed_witness :
    (ask_question cacheW "s" (Except.ok "q") execSilent).1
      = Outcome.json "Action performed." :=
  ask_empty_output_action_performed cacheW cacheW "s" "q" dfW execSilent
    rfl rfl
